import Mathlib

/-!
Verification of the package bootstrapping module `src/pyrho/__init__.py` of the
pyrho repository.  The module assigns two metadata literals, then resolves the
installed package version through the environment metadata registry, falling
back to the literal "unknown" when the package is not registered.
-/

namespace Pyrho

/-- A package metadata registry: the environment-provided mapping from installed
package names to their recorded version strings (`none` when a package is not
registered in the environment). -/
abbrev Registry : Type := String → Option String

/-- Exceptions a metadata lookup may raise.  `packageNotFound` corresponds to
`PackageNotFoundError` from the metadata library; `other` stands for any other
exception an environment could produce. -/
inductive Exc : Type where
  | packageNotFound : String → Exc
  | other : String → Exc
deriving DecidableEq

/-- Modelled from the spec: the metadata `version` function, imported by
`src/pyrho/__init__.py` but defined outside the repository, queries the
environment metadata registry for the package named `name` and raises
`PackageNotFoundError` when the package is not found in that registry
(spec glossary: the registry "records installed package names and their
versions, queried at runtime"). -/
def version (reg : Registry) (name : String) : Except Exc String :=
  match reg name with
  | some v => Except.ok v
  | none => Except.error (Exc.packageNotFound name)

/-- The value of `__name__` inside `src/pyrho/__init__.py`: the package name. -/
def moduleName : String := "pyrho"

/-- The module-level string attributes assigned by `src/pyrho/__init__.py`:
`__author__`, `__email__` and `__version__`. -/
structure ModuleState : Type where
  author : String
  email : String
  version : String
deriving DecidableEq

/-- The try/except statement of lines 8 to 11 of the module, as a function of
the outcome of the metadata lookup: a successful lookup binds `__version__` to
its result; a `PackageNotFoundError` is caught and `__version__` is set to the
literal "unknown"; any other exception is not caught by the except clause and
propagates. -/
def resolveVersion (lookup : Except Exc String) : Except Exc String :=
  match lookup with
  | Except.ok v => Except.ok v
  | Except.error (Exc.packageNotFound _) => Except.ok "unknown"
  | Except.error e => Except.error e

/-- The body of `src/pyrho/__init__.py` as a function of the result of the
metadata lookup it performs: assign the author and email literals, then run the
try/except of `resolveVersion`; when an exception escapes the try/except, that
exception makes the whole module load fail. -/
def initModuleWith (lookup : Except Exc String) : Except Exc ModuleState :=
  match resolveVersion lookup with
  | Except.ok v => Except.ok ⟨"Jimmy Shen", "jmmshn@gmail.com", v⟩
  | Except.error e => Except.error e

/-- Module import of `src/pyrho/__init__.py` in an environment whose metadata
registry is `reg`: the metadata lookup is keyed by the value of `__name__`. -/
def initModule (reg : Registry) : Except Exc ModuleState :=
  initModuleWith (version reg moduleName)

/-- The module-level (attribute, value) assignments performed by a successful
module load, in source order.  The line-1 docstring stores the module-level
string attribute `__doc__` first; then come the three explicit assignments.
The import statement on line 6 additionally binds the two imported function
names; these bindings are not data attributes and are not recorded here. -/
def initAttrs (reg : Registry) : Except Exc (List (String × String)) :=
  (initModule reg).map fun s =>
    [("__doc__", "mp-pyrho package."), ("__author__", s.author),
     ("__email__", s.email), ("__version__", s.version)]

/-- The attribute list of a successful import, as an option (for concrete
evaluation). -/
def attrsOf (reg : Registry) : Option (List (String × String)) :=
  (initAttrs reg).toOption

/-- The registry of an environment with no packages installed. -/
def emptyRegistry : Registry := fun _ => none

/-- A registry in which only the pyrho package is registered, at version `v`. -/
def regWith (v : String) : Registry :=
  fun n => if n = moduleName then some v else none

end Pyrho

namespace Pyrho

/-- Helper: import in an environment registering the package at version `v`. -/
theorem initModule_registered (reg : Registry) (v : String)
    (h : reg moduleName = some v) :
    initModule reg = Except.ok ⟨"Jimmy Shen", "jmmshn@gmail.com", v⟩ := by
  simp [initModule, initModuleWith, resolveVersion, version, h]

/-- Helper: import in an environment not registering the package. -/
theorem initModule_unregistered (reg : Registry)
    (h : reg moduleName = none) :
    initModule reg = Except.ok ⟨"Jimmy Shen", "jmmshn@gmail.com", "unknown"⟩ := by
  simp [initModule, initModuleWith, resolveVersion, version, h]

/-- Helper: the import succeeds in every environment. -/
theorem initModule_total (reg : Registry) :
    ∃ s : ModuleState, initModule reg = Except.ok s := by
  cases h : reg moduleName with
  | some v => exact ⟨_, initModule_registered reg v h⟩
  | none => exact ⟨_, initModule_unregistered reg h⟩

/-- Helper: the author and email fields of any successful import, and the value
of the version field as a function of the registry. -/
theorem initModule_fields (reg : Registry) (s : ModuleState)
    (h : initModule reg = Except.ok s) :
    s.author = "Jimmy Shen" ∧ s.email = "jmmshn@gmail.com" ∧
      (reg moduleName = some s.version ∨
        (reg moduleName = none ∧ s.version = "unknown")) := by
  cases hr : reg moduleName with
  | some v =>
    rw [initModule_registered reg v hr] at h
    injection h with h2
    subst h2
    exact ⟨rfl, rfl, Or.inl rfl⟩
  | none =>
    rw [initModule_unregistered reg hr] at h
    injection h with h2
    subst h2
    exact ⟨rfl, rfl, Or.inr ⟨rfl, rfl⟩⟩

/-- C1: in every environment whose registry records a version for the package
name, module initialization assigns `__version__` exactly that recorded
version string. -/
theorem c1_registered_version (reg : Registry) (v : String)
    (h : reg moduleName = some v) :
    initModule reg = Except.ok ⟨"Jimmy Shen", "jmmshn@gmail.com", v⟩ :=
  initModule_registered reg v h

/-- C1 witness: a concrete environment registering pyrho at version 1.2.3. -/
theorem c1_registered_version_witness :
    regWith "1.2.3" moduleName = some "1.2.3" ∧
    initModule (regWith "1.2.3") =
      Except.ok ⟨"Jimmy Shen", "jmmshn@gmail.com", "1.2.3"⟩ :=
  ⟨by decide, c1_registered_version (regWith "1.2.3") "1.2.3" (by decide)⟩

/-- C2: in every environment whose registry does not record the package name,
module initialization assigns `__version__` the exact literal "unknown". -/
theorem c2_unregistered_unknown (reg : Registry)
    (h : reg moduleName = none) :
    initModule reg = Except.ok ⟨"Jimmy Shen", "jmmshn@gmail.com", "unknown"⟩ :=
  initModule_unregistered reg h

/-- C2 witness: the empty environment, in which pyrho is not registered. -/
theorem c2_unregistered_unknown_witness :
    emptyRegistry moduleName = none ∧
    initModule emptyRegistry =
      Except.ok ⟨"Jimmy Shen", "jmmshn@gmail.com", "unknown"⟩ :=
  ⟨rfl, c2_unregistered_unknown emptyRegistry rfl⟩

/-- C3: for every registry state, importing the module never raises: the import
always succeeds and yields a module state whose `__version__` field is a
string (non-null by the type of `ModuleState`). -/
theorem c3_import_never_raises (reg : Registry) :
    ∃ s : ModuleState, initModule reg = Except.ok s :=
  initModule_total reg

/-- C4: the only failure mode of the metadata lookup is package-not-found;
every error the lookup raises is caught locally and converted to the default
value (`__version__` becomes the literal "unknown"); and no error of version
resolution is ever surfaced: the import succeeds in every environment. -/
theorem c4_error_policy (reg : Registry) (name : String) :
    (∀ e : Exc, version reg name = Except.error e → e = Exc.packageNotFound name) ∧
    (∀ e : Exc, version reg moduleName = Except.error e →
      initModule reg = Except.ok ⟨"Jimmy Shen", "jmmshn@gmail.com", "unknown"⟩) ∧
    (∃ s : ModuleState, initModule reg = Except.ok s) := by
  refine ⟨fun e he => ?_, fun e he => ?_, initModule_total reg⟩
  · cases h : reg name with
    | some v => simp [version, h] at he
    | none =>
      simp only [version, h] at he
      exact (Except.error.injEq _ _ ▸ he : _) ▸ rfl
  · cases h : reg moduleName with
    | some v => simp [version, h] at he
    | none => exact initModule_unregistered reg h

/-- C4 witness: the empty environment, in which the lookup fails with
package-not-found and the import still succeeds with the default value. -/
theorem c4_error_policy_witness :
    Exc.packageNotFound "pyrho" = Exc.packageNotFound "pyrho" ∧
    initModule emptyRegistry =
      Except.ok ⟨"Jimmy Shen", "jmmshn@gmail.com", "unknown"⟩ ∧
    (∃ s : ModuleState, initModule emptyRegistry = Except.ok s) :=
  ⟨(c4_error_policy emptyRegistry "pyrho").1 (Exc.packageNotFound "pyrho") rfl,
   (c4_error_policy emptyRegistry "pyrho").2.1 (Exc.packageNotFound "pyrho") rfl,
   (c4_error_policy emptyRegistry "pyrho").2.2⟩

/-- C5: version resolution queries the registry using the package name bound to
`__name__` as the lookup key (the result of the import depends on the registry
only at that key), and when the lookup raises package-not-found the attribute
is set to the literal "unknown" instead of the failure propagating. -/
theorem c5_query_by_own_name (reg : Registry) :
    moduleName = "pyrho" ∧
    (∀ reg2 : Registry, reg2 moduleName = reg moduleName →
      initModule reg2 = initModule reg) ∧
    (version reg moduleName = Except.error (Exc.packageNotFound moduleName) →
      initModule reg = Except.ok ⟨"Jimmy Shen", "jmmshn@gmail.com", "unknown"⟩) := by
  refine ⟨rfl, fun reg2 h => ?_, fun h => ?_⟩
  · simp [initModule, version, h]
  · simp [initModule, initModuleWith, resolveVersion, h]

/-- C5 witness: the empty environment fails the lookup with package-not-found
and the import sets `__version__` to "unknown". -/
theorem c5_query_by_own_name_witness :
    initModule emptyRegistry = initModule emptyRegistry ∧
    initModule emptyRegistry =
      Except.ok ⟨"Jimmy Shen", "jmmshn@gmail.com", "unknown"⟩ :=
  ⟨(c5_query_by_own_name emptyRegistry).2.1 emptyRegistry rfl,
   (c5_query_by_own_name emptyRegistry).2.2 rfl⟩

/-- C6: after any successful import, `__version__` is either the version the
registry records for the package name, or the literal "unknown"; no third
value is possible. -/
theorem c6_two_values (reg : Registry) (s : ModuleState)
    (h : initModule reg = Except.ok s) :
    reg moduleName = some s.version ∨ s.version = "unknown" := by
  rcases (initModule_fields reg s h).2.2 with hv | ⟨_, hv⟩
  · exact Or.inl hv
  · exact Or.inr hv

/-- C6 witness: the empty environment yields the fallback value. -/
theorem c6_two_values_witness :
    emptyRegistry moduleName =
        some (ModuleState.version ⟨"Jimmy Shen", "jmmshn@gmail.com", "unknown"⟩) ∨
    ModuleState.version ⟨"Jimmy Shen", "jmmshn@gmail.com", "unknown"⟩ = "unknown" :=
  c6_two_values emptyRegistry ⟨"Jimmy Shen", "jmmshn@gmail.com", "unknown"⟩ rfl

/-- C7 counterexample: module initialization does not create `__version__`
alone; at the empty registry the module-level assignments are `__doc__`,
`__author__`, `__email__` and `__version__`, refuting the claim that no
module-level state other than `__version__` is created. -/
theorem c7_counterexample :
    attrsOf emptyRegistry =
      some [("__doc__", "mp-pyrho package."), ("__author__", "Jimmy Shen"),
            ("__email__", "jmmshn@gmail.com"), ("__version__", "unknown")] ∧
    attrsOf emptyRegistry ≠ some [("__version__", "unknown")] := by
  constructor
  · rfl
  · decide

/-- C7 (amended): module initialization creates exactly four module-level
string attributes, `__doc__` (the line-1 docstring), `__author__`, `__email__`
and `__version__` (besides the two function names bound by the import
statement); no other module-level data state is created, and the data flow is
exactly these assignments. -/
theorem c7_amended_module_attrs (reg : Registry) (attrs : List (String × String))
    (h : initAttrs reg = Except.ok attrs) :
    attrs.map Prod.fst = ["__doc__", "__author__", "__email__", "__version__"] := by
  obtain ⟨s, hs⟩ := initModule_total reg
  rw [initAttrs, hs] at h
  cases h
  rfl

/-- C7 amended witness: the attribute keys at the empty registry. -/
theorem c7_amended_module_attrs_witness :
    List.map Prod.fst
        [("__doc__", "mp-pyrho package."), ("__author__", "Jimmy Shen"),
         ("__email__", "jmmshn@gmail.com"), ("__version__", "unknown")] =
      ["__doc__", "__author__", "__email__", "__version__"] :=
  c7_amended_module_attrs emptyRegistry
    [("__doc__", "mp-pyrho package."), ("__author__", "Jimmy Shen"),
     ("__email__", "jmmshn@gmail.com"), ("__version__", "unknown")] rfl

/-- C8: when the metadata lookup raises any exception other than
package-not-found, the except clause does not catch it and the import fails
with that exception; only package-not-found is handled (and turns into a
successful import with the fallback value). -/
theorem c8_other_exceptions_propagate (msg pkg : String) :
    initModuleWith (Except.error (Exc.other msg)) =
        Except.error (Exc.other msg) ∧
    initModuleWith (Except.error (Exc.packageNotFound pkg)) =
      Except.ok ⟨"Jimmy Shen", "jmmshn@gmail.com", "unknown"⟩ :=
  ⟨rfl, rfl⟩

/-- C9: module initialization is deterministic in the registry state: two runs
over extensionally equal registries assign the same module state. -/
theorem c9_deterministic (reg1 reg2 : Registry)
    (h : ∀ n, reg1 n = reg2 n) :
    initModule reg1 = initModule reg2 := by
  simp [initModule, version, h moduleName]

/-- C9 witness: two syntactically different registries describing the same
environment give the same import result. -/
theorem c9_deterministic_witness :
    initModule (fun n => if n = "pyrho" then some "0.5" else none) =
      initModule (fun n => if "pyrho" = n then some "0.5" else none) :=
  c9_deterministic _ _ (fun n => by by_cases h : n = "pyrho" <;> simp [h, eq_comm])

/-- C10: in every environment, a successful import performs the `__author__`
and `__email__` assignments unconditionally, right after the docstring and
before the `__version__` assignment of version resolution, with the exact
literals "Jimmy Shen" and "jmmshn@gmail.com". -/
theorem c10_author_email (reg : Registry) (attrs : List (String × String))
    (h : initAttrs reg = Except.ok attrs) :
    attrs[1]? = some ("__author__", "Jimmy Shen") ∧
    attrs[2]? = some ("__email__", "jmmshn@gmail.com") ∧
    (attrs.map Prod.fst)[3]? = some "__version__" := by
  obtain ⟨s, hs⟩ := initModule_total reg
  obtain ⟨ha, he, -⟩ := initModule_fields reg s hs
  rw [initAttrs, hs] at h
  cases h
  exact ⟨by simp [ha], by simp [he], rfl⟩

/-- C10 witness: the attribute list at the empty registry. -/
theorem c10_author_email_witness :
    ([("__doc__", "mp-pyrho package."), ("__author__", "Jimmy Shen"),
      ("__email__", "jmmshn@gmail.com"), ("__version__", "unknown")] :
        List (String × String))[1]? = some ("__author__", "Jimmy Shen") ∧
    ([("__doc__", "mp-pyrho package."), ("__author__", "Jimmy Shen"),
      ("__email__", "jmmshn@gmail.com"), ("__version__", "unknown")] :
        List (String × String))[2]? = some ("__email__", "jmmshn@gmail.com") ∧
    (List.map Prod.fst
        [("__doc__", "mp-pyrho package."), ("__author__", "Jimmy Shen"),
         ("__email__", "jmmshn@gmail.com"), ("__version__", "unknown")])[3]? =
      some "__version__" :=
  c10_author_email emptyRegistry
    [("__doc__", "mp-pyrho package."), ("__author__", "Jimmy Shen"),
     ("__email__", "jmmshn@gmail.com"), ("__version__", "unknown")] rfl

end Pyrho
